import Mathlib

/-!
Verification of the configuration engine of `xmake.js` (`src/configure.ts`).

Modelling conventions, used throughout:

* The process-wide configuration store keyed by flat strings
  `"<entity>_<key>"` is modelled as a function of the two components
  `entity → key → value`; the root target scope (keys `__root_<key>`)
  is the distinguished entity `"__root"`.
* Option attribute values are arbitrary JavaScript scalars
  (`undefined`, strings, booleans): modelled by `JSVal`.
  Target attribute values are strings or `undefined`: modelled by
  `Option String`.
* Space-joined token lists are modelled at the token level
  (`List String`) at the points where the source itself converts with
  `string_to_array` / `join(" ")`; the conversion functions are embedded
  faithfully and used where the source uses them.
* Subprocess invocations (compiler / linker probes) are replaced by
  boolean oracles passed as parameters; exceptions (`throw`, `raise`)
  become `Except String` results; `process.exit(n)` becomes the value `n`.
* Unbounded recursion over the `deps` graph (which the source performs
  directly on user input) is modelled with an explicit fuel parameter.
-/

deriving instance DecidableEq for Except

namespace XmakeJS

/-- JavaScript scalar values stored in the options namespace. -/
inductive JSVal where
  | undef : JSVal
  | str : String → JSVal
  | bool : Bool → JSVal
deriving DecidableEq, Repr

/-- `test_z` (configure.ts line 93): true on `undefined` and the empty string. -/
def test_z_js : JSVal → Bool
  | JSVal.undef => true
  | .str s => s = ""
  | .bool _ => false

/-- `test_nz` (line 100): negation of `test_z`. -/
def test_nz_js (v : JSVal) : Bool := !test_z_js v

/-- JavaScript truthiness of a stored value, as used by `if (x)` tests. -/
def truthy : JSVal → Bool
  | JSVal.undef => false
  | .str s => s ≠ ""
  | .bool b => b

/-- JavaScript `String(v)` coercion (used by implicit string conversions). -/
def js_string_of : JSVal → String
  | JSVal.undef => "undefined"
  | .str s => s
  | .bool true => "true"
  | .bool false => "false"

/-- `_is_enabled` (line 370): membership in `[true, "true", "yes", "y"]`. -/
def _is_enabled (v : JSVal) : Bool :=
  v = .bool true ∨ v = .str "true" ∨ v = .str "yes" ∨ v = .str "y"

/-- The options namespace of the store: `(name, key) → value`. -/
def OptStore := String → String → JSVal

/-- `_map_set` on the options namespace. -/
def oset (st : OptStore) (n k : String) (v : JSVal) : OptStore :=
  fun m j => if m = n ∧ j = k then v else st m j

/-- `_get_option_item` (line 868). -/
def _get_option_item (st : OptStore) (name key : String) : JSVal := st name key

/-- `_get_option_value` (line 894): the stored `value`, falling back to
`default` when the value is empty/unset. -/
def _get_option_value (st : OptStore) (name : String) : JSVal :=
  let value := _get_option_item st name "value"
  if test_z_js value then _get_option_item st name "default" else value

/-- `_set_option_value` (line 903). -/
def _set_option_value (st : OptStore) (name : String) (v : JSVal) : OptStore :=
  oset st name "value" v

/-- `_option_need_checking` (line 907): false when `default` (coalesced with
`""`) is non-empty, otherwise true iff any of the ten probing inputs is
truthy. -/
def _option_need_checking (st : OptStore) (name : String) : Bool :=
  let d := match _get_option_item st name "default" with
    | JSVal.undef => .str ""
    | v => v
  if test_nz_js d then false
  else
    truthy (_get_option_item st name "cfuncs") ||
    truthy (_get_option_item st name "cxxfuncs") ||
    truthy (_get_option_item st name "cincludes") ||
    truthy (_get_option_item st name "cxxincludes") ||
    truthy (_get_option_item st name "ctypes") ||
    truthy (_get_option_item st name "cxxtypes") ||
    truthy (_get_option_item st name "csnippets") ||
    truthy (_get_option_item st name "cxxsnippets") ||
    truthy (_get_option_item st name "links") ||
    truthy (_get_option_item st name "syslinks")

/-- `_get_options_for_checking` (line 945), at the token level: the declared
options (in declaration order) whose `showmenu` is falsy and which need
checking. -/
def _get_options_for_checking (st : OptStore) (options : List String) : List String :=
  options.filter (fun n =>
    !truthy (_get_option_item st n "showmenu") && _option_need_checking st n)

/-- `is_config` (line 966): false outside the targets-loading phase, else a
strict-equality comparison with the resolved option value. -/
def is_config (loading_targets : Bool) (st : OptStore) (name : String) (v : JSVal) : Bool :=
  if loading_targets then _get_option_value st name = v else false

/-- `has_config` (line 975): false outside the targets-loading phase, else
`_is_enabled` of the resolved option value. -/
def has_config (loading_targets : Bool) (st : OptStore) (name : String) : Bool :=
  if loading_targets then _is_enabled (_get_option_value st name) else false

/-- `_check_cxsnippets` (line 2702), with compile/link subprocess results
supplied by the oracles `compile_ok`/`link_ok` (keyed by the snippet kind).
Returns the check result together with a flag recording whether the
compiler was invoked.  When all four of `<kind>funcs/<kind>includes/`
`<kind>types/<kind>snippets` are empty the source executes `return false`
(line 2711) without running any subprocess.  The `links += syslinks`
step concatenates the JavaScript string coercions (an unset `links`
contributes the text `undefined`), exactly as `+=` does on `undefined`. -/
def _check_cxsnippets (st : OptStore) (name kind : String)
    (compile_ok link_ok : String → Bool) : Bool × Bool :=
  let funcs := _get_option_item st name (kind ++ "funcs")
  let includes := _get_option_item st name (kind ++ "includes")
  let types := _get_option_item st name (kind ++ "types")
  let snippets := _get_option_item st name (kind ++ "snippets")
  let links := _get_option_item st name "links"
  let syslinks := _get_option_item st name "syslinks"
  if test_z_js funcs && test_z_js includes && test_z_js types && test_z_js snippets then
    (false, false)
  else
    let links := if test_nz_js syslinks then
        JSVal.str (js_string_of links ++ js_string_of syslinks)
      else links
    let ok := compile_ok kind
    if ok && test_nz_js links then (link_ok kind, true) else (ok, true)

/-- `_check_option` (line 2832): conjunction of the `c` and `cxx` checks. -/
def _check_option (st : OptStore) (name : String)
    (compile_ok link_ok : String → Bool) : Bool :=
  (_check_cxsnippets st name "c" compile_ok link_ok).1 &&
  (_check_cxsnippets st name "cxx" compile_ok link_ok).1

/-- `_check_options` (line 2836): probe each option in the given list and
record the boolean result in its `value` attribute. -/
def _check_options (st : OptStore) (names : List String)
    (compile_ok link_ok : String → Bool) : OptStore :=
  names.foldl (fun s nm => _set_option_value s nm (.bool (_check_option s nm compile_ok link_ok))) st

/-- Reads of the options store after `_check_options` are unchanged at any
`(name, key)` cell whose name is not in the probed list or whose key is not
`"value"`. -/
theorem check_options_get (co lo : String → Bool) (name key : String) :
    ∀ (names : List String) (st : OptStore), (name ∉ names ∨ key ≠ "value") →
      _check_options st names co lo name key = st name key := by
  intro names
  induction names with
  | nil => intro st _; rfl
  | cons nm rest ih =>
    intro st h
    have hrest : name ∉ rest ∨ key ≠ "value" := by
      rcases h with h | h
      · exact Or.inl (fun hc => h (List.mem_cons_of_mem _ hc))
      · exact Or.inr h
    have step : _check_options st (nm :: rest) co lo =
        _check_options (_set_option_value st nm (.bool (_check_option st nm co lo))) rest co lo := rfl
    rw [step, ih _ hrest]
    unfold _set_option_value oset
    rw [if_neg]
    rintro ⟨h1, h2⟩
    rcases h with h | h
    · exact h (h1 ▸ List.mem_cons_self _ _)
    · exact h h2

/-- C9: `has_config` and `is_config` return false whenever called outside the
targets-loading phase, regardless of the stored option value or default; during
the targets-loading phase they consult the resolved option value
(`_get_option_value`, which falls back to `default` when no value is set). -/
theorem c9_config_phase_gate (st : OptStore) (name : String) (v : JSVal) :
    has_config false st name = false ∧
    is_config false st name v = false ∧
    has_config true st name = _is_enabled (_get_option_value st name) ∧
    is_config true st name v = decide (_get_option_value st name = v) := by
  exact ⟨rfl, rfl, rfl, rfl⟩

/-- Concrete store for the C6 witness: option `foo` with a non-empty default
and no recorded value. -/
def c6Store : OptStore := fun n k =>
  if n = "foo" then
    (if k = "default" then .str "yes"
     else if k = "description" then .str "enable foo"
     else JSVal.undef )
  else JSVal.undef

/-- C6: an option whose `default` attribute is non-empty never needs checking,
is excluded from the probed option list, its `value` attribute is never
written by the checker, and (when no value was recorded by anything else) its
resolved value equals its default. -/
theorem c6_default_skips_probing (st : OptStore) (options : List String)
    (name : String) (co lo : String → Bool)
    (hdef : test_nz_js (match _get_option_item st name "default" with
      | JSVal.undef => .str ""
      | v => v) = true) :
    _option_need_checking st name = false ∧
    name ∉ _get_options_for_checking st options ∧
    _check_options st (_get_options_for_checking st options) co lo name "value"
      = st name "value" ∧
    (st name "value" = JSVal.undef →
      _get_option_value (_check_options st (_get_options_for_checking st options) co lo) name
        = st name "default") := by
  have hneed : _option_need_checking st name = false := by
    unfold _option_need_checking
    rw [if_pos hdef]
  have hmem : name ∉ _get_options_for_checking st options := by
    intro hc
    have := List.of_mem_filter hc
    rw [hneed] at this
    simp at this
  refine ⟨hneed, hmem, check_options_get co lo name "value" _ st (Or.inl hmem), ?_⟩
  intro hval
  simp only [_get_option_value, _get_option_item]
  rw [check_options_get co lo name "value" _ st (Or.inl hmem), hval]
  rw [if_pos (by decide : test_z_js JSVal.undef = true)]
  exact check_options_get co lo name "default" _ st (Or.inr (by decide))

/-- Witness for C6 at the concrete store `c6Store`. -/
theorem c6_default_skips_probing_witness :
    _option_need_checking c6Store "foo" = false ∧
    "foo" ∉ _get_options_for_checking c6Store ["foo"] ∧
    _check_options c6Store (_get_options_for_checking c6Store ["foo"])
      (fun _ => true) (fun _ => true) "foo" "value" = c6Store "foo" "value" ∧
    (c6Store "foo" "value" = JSVal.undef →
      _get_option_value (_check_options c6Store (_get_options_for_checking c6Store ["foo"])
        (fun _ => true) (fun _ => true)) "foo" = c6Store "foo" "default") :=
  c6_default_skips_probing c6Store ["foo"] "foo" (fun _ => true) (fun _ => true) (by decide)

/-- Concrete store for C1: option `pthread` with only c-kind probing inputs
(`cfuncs`, `cincludes`) plus `links`, exactly the spec's scenario S3. -/
def pthreadStore : OptStore := fun n k =>
  if n = "pthread" then
    (if k = "cfuncs" then .str "pthread_create"
     else if k = "cincludes" then .str "pthread.h"
     else if k = "links" then .str "pthread"
     else JSVal.undef )
  else JSVal.undef

/-- C1: evaluation of the probing code at the failing input.  For option
`pthread`, whose cxx-kind probing inputs are all unset, the cxx snippet check
returns failure (`false`) without invoking the compiler — the source
(configure.ts line 2710-2712) executes `return false` where the claim (and
the shell original, which executes `return 0` = success there) requires
success.  Consequently, even with compile and link oracles that always
succeed, `_check_option` is false and `_check_options` records the option's
value as `false`, not `true` as the claim requires. -/
theorem c1_empty_kind_check_fails :
    _check_cxsnippets pthreadStore "pthread" "cxx" (fun _ => true) (fun _ => true)
      = (false, false) ∧
    _check_cxsnippets pthreadStore "pthread" "c" (fun _ => true) (fun _ => true)
      = (true, true) ∧
    _check_option pthreadStore "pthread" (fun _ => true) (fun _ => true) = false ∧
    _get_options_for_checking pthreadStore ["pthread"] = ["pthread"] ∧
    _check_options pthreadStore (_get_options_for_checking pthreadStore ["pthread"])
      (fun _ => true) (fun _ => true) "pthread" "value" = .bool false := by
  refine ⟨rfl, rfl, rfl, rfl, rfl⟩

/-- The targets namespace of the store: `(entity, key) → value`; the root
scope (`__root_<key>` in the source's flat key space) is the entity
`"__root"`. -/
def TStore := String → String → Option String

/-- `_map_set` on the targets namespace. -/
def tset (st : TStore) (n k : String) (v : String) : TStore :=
  fun m j => if m = n ∧ j = k then some v else st m j

/-- `_add_target_item` (line 1104): append `" " ++ value` to the raw cell
(no root concatenation on the read-modify-write). -/
def _add_target_item (st : TStore) (n k v : String) : TStore :=
  tset st n k (match st n k with
    | none => v
    | some s => s ++ " " ++ v)

/-- `test_z` on target attribute reads: `undefined` or the empty string. -/
def test_zo : Option String → Bool
  | none => true
  | some s => s = ""

/-- `test_nz` on target attribute reads. -/
def test_nzo (o : Option String) : Bool := !test_zo o

/-- `_get_target_item` (line 1084): the target's own cell, with the root
scope value for the same key prepended (space-joined) when present. -/
def _get_target_item (st : TStore) (name key : String) : Option String :=
  let values := st name key
  match st "__root" key with
  | some r => if test_nzo values then some (r ++ " " ++ values.getD "") else some r
  | none => values

/-- `_has_target_item` (line 1079). -/
def _has_target_item (st : TStore) (name key : String) : Bool :=
  (st name key).isSome || (st "__root" key).isSome

/-- Split a character list at spaces, dropping empty tokens (`cur` is the
reversed current token). -/
def words_aux : List Char → List Char → List String
  | [], cur => if cur.isEmpty then [] else [⟨cur.reverse⟩]
  | c :: rest, cur =>
    if c = ' ' then
      (if cur.isEmpty then words_aux rest [] else ⟨cur.reverse⟩ :: words_aux rest [])
    else words_aux rest (c :: cur)

/-- Drop leading and trailing whitespace characters (`String.prototype.trim`). -/
def trim_chars (l : List Char) : List Char :=
  ((l.dropWhile Char.isWhitespace).reverse.dropWhile Char.isWhitespace).reverse

/-- `string_to_array` (line 152): trim, split on single spaces, drop empty
tokens (implemented on the character list so that it evaluates by
kernel reduction). -/
def string_to_array (s : String) : List String := words_aux (trim_chars s.data) []

/-- Join tokens with a separator (`Array.prototype.join`). -/
def join_with (sep : String) : List String → String
  | [] => ""
  | [x] => x
  | x :: y :: rest => x ++ sep ++ join_with sep (y :: rest)

/-- `string_to_array` applied to a possibly-undefined attribute
(the source coalesces with `""`). -/
def opt_to_array (o : Option String) : List String := string_to_array (o.getD "")

/-- The static-or-shared test on a dependency's `kind`
(lines 1215-1216). -/
def _is_library_kind (st : TStore) (dep : String) : Bool :=
  _get_target_item st dep "kind" = some "static" ∨ _get_target_item st dep "kind" = some "shared"

/-- `_get_target_librarydeps_impl` (line 1211), at the token level, with an
explicit fuel parameter bounding the recursion depth (the source recurses on
user input without any cycle guard): a DFS over `deps` that emits each
static/shared dependency followed by its own recursive enumeration. -/
def _get_target_librarydeps_impl (st : TStore) : Nat → String → List String
  | 0, _ => []
  | fuel + 1, name =>
    (opt_to_array (_get_target_item st name "deps")).flatMap (fun dep =>
      if _is_library_kind st dep then dep :: _get_target_librarydeps_impl st fuel dep else [])

/-- `_dedup_reverse` (line 385) at the token level: traverse the word list
from its end, prepending each word not seen yet. -/
def dedup_reverse_words (ws : List String) : List String :=
  ws.foldr (fun w acc => if w ∈ acc then acc else w :: acc) []

/-- `_dedup_reverse` (line 385) on a space-joined string. -/
def _dedup_reverse (s : String) : String :=
  join_with " " (dedup_reverse_words (string_to_array s))

/-- `_get_target_librarydeps` (line 1227), value level: return the memoized
`librarydeps` attribute if present (`"__none__"` marking a computed-empty
list), else the reverse-deduped DFS enumeration.  The source additionally
writes the computed value (or the `"__none__"` sentinel) back into the
store; the returned value is the same either way. -/
def _get_target_librarydeps (st : TStore) (fuel : Nat) (name : String) : List String :=
  let stored := _get_target_item st name "librarydeps"
  if test_zo stored then
    dedup_reverse_words (_get_target_librarydeps_impl st fuel name)
  else if stored = some "__none__" then []
  else opt_to_array stored

/-- The spec's claimed deduplication for C3: the first occurrence of every
word survives, at its first position. -/
def dedup_keep_first_spec (ws : List String) : List String :=
  ws.foldl (fun acc w => if w ∈ acc then acc else acc ++ [w]) []

/-- The deduplication the source actually performs: a word survives exactly
at its last occurrence. -/
def dedup_keep_last_spec : List String → List String
  | [] => []
  | w :: rest => if w ∈ rest then dedup_keep_last_spec rest else w :: dedup_keep_last_spec rest

theorem mem_dedup_reverse_words :
    ∀ (ws : List String) (x : String), x ∈ dedup_reverse_words ws ↔ x ∈ ws := by
  intro ws
  induction ws with
  | nil => intro x; simp [dedup_reverse_words]
  | cons w rest ih =>
    intro x
    show x ∈ (if w ∈ dedup_reverse_words rest then dedup_reverse_words rest
      else w :: dedup_reverse_words rest) ↔ x ∈ w :: rest
    by_cases hw : w ∈ dedup_reverse_words rest
    · rw [if_pos hw]
      have hw2 : w ∈ rest := (ih w).mp hw
      rw [ih x]
      simp only [List.mem_cons]
      constructor
      · exact Or.inr
      · rintro (h | h)
        · exact h ▸ hw2
        · exact h
    · rw [if_neg hw]
      simp only [List.mem_cons, ih x]

theorem dedup_reverse_words_eq_keep_last :
    ∀ ws : List String, dedup_reverse_words ws = dedup_keep_last_spec ws := by
  intro ws
  induction ws with
  | nil => rfl
  | cons w rest ih =>
    show (if w ∈ dedup_reverse_words rest then dedup_reverse_words rest
      else w :: dedup_reverse_words rest) = dedup_keep_last_spec (w :: rest)
    unfold dedup_keep_last_spec
    by_cases hw : w ∈ rest
    · rw [if_pos ((mem_dedup_reverse_words rest w).mpr hw), if_pos hw, ih]
    · rw [if_neg (fun hc => hw ((mem_dedup_reverse_words rest w).mp hc)), if_neg hw, ih]

theorem nodup_dedup_reverse_words :
    ∀ ws : List String, (dedup_reverse_words ws).Nodup := by
  intro ws
  induction ws with
  | nil => exact List.nodup_nil
  | cons w rest ih =>
    show (if w ∈ dedup_reverse_words rest then dedup_reverse_words rest
      else w :: dedup_reverse_words rest).Nodup
    by_cases hw : w ∈ dedup_reverse_words rest
    · rw [if_pos hw]; exact ih
    · rw [if_neg hw]; exact List.Nodup.cons hw ih

/-- Concrete target store for C3 and C8: a diamond of static libraries
(`a` depends on `b` and `c`, both of which depend on `d`). -/
def c3Store : TStore := fun n k =>
  if n = "a" then (if k = "deps" then some "b c" else if k = "kind" then some "binary" else none)
  else if n = "b" then (if k = "deps" then some "d" else if k = "kind" then some "static" else none)
  else if n = "c" then (if k = "deps" then some "d" else if k = "kind" then some "static" else none)
  else if n = "d" then (if k = "kind" then some "static" else none)
  else none

/-- C3 counterexample: on the diamond store the DFS enumeration is
`b d c d`; the source's `_dedup_reverse` keeps the *last* occurrence of each
duplicate, giving `b c d`, while the claimed first-occurrence-survives
deduplication gives `b d c`. -/
theorem c3_counterexample :
    _get_target_librarydeps_impl c3Store 10 "a" = ["b", "d", "c", "d"] ∧
    _get_target_librarydeps c3Store 10 "a" = ["b", "c", "d"] ∧
    dedup_keep_first_spec (_get_target_librarydeps_impl c3Store 10 "a") = ["b", "d", "c"] ∧
    _get_target_librarydeps c3Store 10 "a"
      ≠ dedup_keep_first_spec (_get_target_librarydeps_impl c3Store 10 "a") := by
  refine ⟨by decide, by decide, by decide, by decide⟩

/-- C3 (amended): for every target whose `librarydeps` attribute is not yet
memoized, the computed transitive library dependency list equals the DFS
enumeration of its deps restricted to static/shared targets, deduplicated so
that for every duplicated name the *last* occurrence (the one nearest the end
of the DFS) survives and earlier occurrences are dropped. -/
theorem c3_librarydeps_last_occurrence (st : TStore) (fuel : Nat) (name : String)
    (hfresh : test_zo (_get_target_item st name "librarydeps") = true) :
    _get_target_librarydeps st fuel name
      = dedup_keep_last_spec (_get_target_librarydeps_impl st fuel name) := by
  unfold _get_target_librarydeps
  rw [if_pos hfresh]
  exact dedup_reverse_words_eq_keep_last _

/-- Witness for the amended C3 on the concrete diamond store. -/
theorem c3_librarydeps_last_occurrence_witness :
    _get_target_librarydeps c3Store 10 "a"
      = dedup_keep_last_spec (_get_target_librarydeps_impl c3Store 10 "a") :=
  c3_librarydeps_last_occurrence c3Store 10 "a" (by decide)

/-- Every name the DFS emits has static or shared kind. -/
theorem impl_mem_lib (st : TStore) :
    ∀ (fuel : Nat) (name x : String), x ∈ _get_target_librarydeps_impl st fuel name →
      _is_library_kind st x = true := by
  intro fuel
  induction fuel with
  | zero => intro name x hx; simp [_get_target_librarydeps_impl] at hx
  | succ f ih =>
    intro name x hx
    unfold _get_target_librarydeps_impl at hx
    rw [List.mem_flatMap] at hx
    obtain ⟨dep, hdep, hx⟩ := hx
    by_cases hk : _is_library_kind st dep = true
    · rw [if_pos hk] at hx
      rcases List.mem_cons.mp hx with h | h
      · exact h ▸ hk
      · exact ih dep x h
    · rw [if_neg hk] at hx
      simp at hx

/-- A direct static/shared dependency's block (the dependency followed by its
own enumeration) is contained in the parent's enumeration at one more fuel. -/
theorem impl_block_sub (st : TStore) (fuel : Nat) (name dep : String)
    (hdep : dep ∈ opt_to_array (_get_target_item st name "deps"))
    (hk : _is_library_kind st dep = true) :
    ∀ x ∈ dep :: _get_target_librarydeps_impl st fuel dep,
      x ∈ _get_target_librarydeps_impl st (fuel + 1) name := by
  intro x hx
  unfold _get_target_librarydeps_impl
  rw [List.mem_flatMap]
  exact ⟨dep, hdep, by rw [if_pos hk]; exact hx⟩

/-- Under fuel stability, the enumeration of any emitted name is contained in
the emitting enumeration. -/
theorem impl_sub (st : TStore) (fuel : Nat)
    (hstab : ∀ t, _get_target_librarydeps_impl st fuel t
      = _get_target_librarydeps_impl st (fuel + 1) t) :
    ∀ (g : Nat) (name d : String), d ∈ _get_target_librarydeps_impl st g name →
      ∀ x ∈ _get_target_librarydeps_impl st fuel d,
        x ∈ _get_target_librarydeps_impl st fuel name := by
  intro g
  induction g with
  | zero => intro name d hd; simp [_get_target_librarydeps_impl] at hd
  | succ g ih =>
    intro name d hd x hx
    unfold _get_target_librarydeps_impl at hd
    rw [List.mem_flatMap] at hd
    obtain ⟨e, he, hd⟩ := hd
    by_cases hk : _is_library_kind st e = true
    · rw [if_pos hk] at hd
      have key : ∀ y ∈ _get_target_librarydeps_impl st fuel e,
          y ∈ _get_target_librarydeps_impl st fuel name := by
        intro y hy
        rw [hstab name]
        exact impl_block_sub st fuel name e he hk y (List.mem_cons_of_mem _ hy)
      rcases List.mem_cons.mp hd with h | h
      · subst h
        exact key x hx
      · exact key x (ih e d h x hx)
    · rw [if_neg hk] at hd
      simp at hd

/-- C8: for every target whose `librarydeps` attribute is not yet memoized,
under fuel stability of the DFS, the computed transitive library dependency
list contains only static/shared targets, contains no duplicate names, and is
closed under the `deps` relation restricted to static/shared targets. -/
theorem c8_librarydeps_closed (st : TStore) (fuel : Nat) (name : String)
    (hfresh : test_zo (_get_target_item st name "librarydeps") = true)
    (hstab : ∀ t, _get_target_librarydeps_impl st fuel t
      = _get_target_librarydeps_impl st (fuel + 1) t) :
    (∀ d ∈ _get_target_librarydeps st fuel name, _is_library_kind st d = true) ∧
    (_get_target_librarydeps st fuel name).Nodup ∧
    (∀ d ∈ _get_target_librarydeps st fuel name,
      ∀ e ∈ opt_to_array (_get_target_item st d "deps"),
        _is_library_kind st e = true → e ∈ _get_target_librarydeps st fuel name) := by
  have hL : _get_target_librarydeps st fuel name
      = dedup_reverse_words (_get_target_librarydeps_impl st fuel name) := by
    unfold _get_target_librarydeps
    rw [if_pos hfresh]
  rw [hL]
  refine ⟨?_, nodup_dedup_reverse_words _, ?_⟩
  · intro d hd
    exact impl_mem_lib st fuel name d ((mem_dedup_reverse_words _ d).mp hd)
  · intro d hd e he hke
    have hdI : d ∈ _get_target_librarydeps_impl st fuel name :=
      (mem_dedup_reverse_words _ d).mp hd
    rw [mem_dedup_reverse_words]
    cases fuel with
    | zero => simp [_get_target_librarydeps_impl] at hdI
    | succ f =>
      have heI : e ∈ _get_target_librarydeps_impl st (f + 1) d :=
        impl_block_sub st f d e he hke e (List.mem_cons_self _ _)
      exact impl_sub st (f + 1) hstab (f + 1) name d hdI e heI

/-- Fuel 3 is stable for the concrete diamond store: unknown targets have no
`deps` attribute, so their enumeration is empty at every fuel. -/
theorem c3Store_stab : ∀ t, _get_target_librarydeps_impl c3Store 3 t
    = _get_target_librarydeps_impl c3Store 4 t := by
  intro t
  by_cases h1 : t = "a"
  · subst h1; decide
  by_cases h2 : t = "b"
  · subst h2; decide
  by_cases h3 : t = "c"
  · subst h3; decide
  by_cases h4 : t = "d"
  · subst h4; decide
  have hdeps : opt_to_array (_get_target_item c3Store t "deps") = [] := by
    have : _get_target_item c3Store t "deps" = none := by
      simp [_get_target_item, c3Store, h1, h2, h3, h4]
    rw [this]
    rfl
  show _get_target_librarydeps_impl c3Store (2 + 1) t
    = _get_target_librarydeps_impl c3Store (3 + 1) t
  unfold _get_target_librarydeps_impl
  rw [hdeps]
  rfl

/-- Witness for C8 on the concrete diamond store. -/
theorem c8_librarydeps_closed_witness :
    (∀ d ∈ _get_target_librarydeps c3Store 3 "a", _is_library_kind c3Store d = true) ∧
    (_get_target_librarydeps c3Store 3 "a").Nodup ∧
    (∀ d ∈ _get_target_librarydeps c3Store 3 "a",
      ∀ e ∈ opt_to_array (_get_target_item c3Store d "deps"),
        _is_library_kind c3Store e = true → e ∈ _get_target_librarydeps c3Store 3 "a") :=
  c8_librarydeps_closed c3Store 3 "a" (by decide) c3Store_stab

/-- Node's `path.join` on already-normalized relative segments: drop empty
segments and join with `/` (the `.`/`..` normalization that `path.join` also
performs does not arise for the segments the configurator joins). -/
def path_join (parts : List String) : String :=
  join_with "/" (parts.filter (fun p => p ≠ ""))

/-- `_get_target_basename` (line 1124): the `basename` attribute, defaulting
(`??`) to the target name when undefined. -/
def _get_target_basename (st : TStore) (name : String) : String :=
  match _get_target_item st name "basename" with
  | none => name
  | some s => s

/-- `_get_target_extension` (line 1128): the `extension` attribute if present,
else derived from the target's `kind` and the platform. -/
def _get_target_extension (st : TStore) (plat : String) (name : String) : String :=
  if _has_target_item st name "extension" then
    (_get_target_item st name "extension").getD ""
  else if plat = "mingw" then
    (let kind := _get_target_item st name "kind"
     if kind = some "binary" then ".exe"
     else if kind = some "static" then ".a"
     else if kind = some "shared" then ".dll"
     else "")
  else
    (let kind := _get_target_item st name "kind"
     if kind = some "static" then ".a"
     else if kind = some "shared" then ".so"
     else "")

/-- `_get_target_prefixname` (line 1152): the `prefixname` attribute if
present, else `lib` for static/shared kinds (on every platform). -/
def _get_target_prefixname (st : TStore) (plat : String) (name : String) : String :=
  if _has_target_item st name "prefixname" then
    (_get_target_item st name "prefixname").getD ""
  else if plat = "mingw" then
    (let kind := _get_target_item st name "kind"
     if kind = some "static" then "lib"
     else if kind = some "shared" then "lib"
     else "")
  else
    (let kind := _get_target_item st name "kind"
     if kind = some "static" then "lib"
     else if kind = some "shared" then "lib"
     else "")

/-- `_get_target_filename` (line 1174): the `filename` attribute when
non-empty, else `prefixname ++ basename ++ extension`. -/
def _get_target_filename (st : TStore) (plat : String) (name : String) : String :=
  let filename := _get_target_item st name "filename"
  if test_zo filename then
    _get_target_prefixname st plat name ++ _get_target_basename st name
      ++ _get_target_extension st plat name
  else filename.getD ""

/-- `_get_targetdir` (line 1187): the `targetdir` attribute when non-empty,
else `<buildir>/<plat>/<arch>/<mode>`. -/
def _get_targetdir (st : TStore) (buildir plat arch mode : String) (name : String) : String :=
  let targetdir := _get_target_item st name "targetdir"
  if test_zo targetdir then path_join [buildir, plat, arch, mode]
  else targetdir.getD ""

/-- `_get_target_file` (line 1204): join of the target directory and the
target filename. -/
def _get_target_file (st : TStore) (buildir plat arch mode : String) (name : String) : String :=
  path_join [_get_targetdir st buildir plat arch mode name, _get_target_filename st plat name]

/-- C7: for every target whose `filename` attribute is not explicitly set,
`_get_target_file` is the path join of the target directory with
`prefixname ++ basename ++ extension` (where the basename defaults to the
target name and prefix/extension derive from kind and platform); when
`filename` is explicitly set (to a non-empty value) it is joined with the
target directory instead. -/
theorem c7_target_file (st : TStore) (buildir plat arch mode name : String) :
    (_get_target_item st name "basename" = none → _get_target_basename st name = name) ∧
    (test_zo (_get_target_item st name "filename") = true →
      _get_target_file st buildir plat arch mode name =
        path_join [_get_targetdir st buildir plat arch mode name,
          _get_target_prefixname st plat name ++ _get_target_basename st name
            ++ _get_target_extension st plat name]) ∧
    (∀ f, _get_target_item st name "filename" = some f → f ≠ "" →
      _get_target_file st buildir plat arch mode name =
        path_join [_get_targetdir st buildir plat arch mode name, f]) := by
  refine ⟨?_, ?_, ?_⟩
  · intro h
    unfold _get_target_basename
    rw [h]
  · intro h
    unfold _get_target_file _get_target_filename
    rw [if_pos h]
  · intro f hf hne
    unfold _get_target_file _get_target_filename
    rw [hf]
    simp [test_zo, hne]

/-- Concrete store for the C7 witness: target `hello` of binary kind with no
explicit filename, and target `fancy` with an explicit filename. -/
def c7Store : TStore := fun n k =>
  if n = "hello" then (if k = "kind" then some "binary" else none)
  else if n = "fancy" then
    (if k = "kind" then some "shared" else if k = "filename" then some "libfancy-2.so" else none)
  else none

/-- Witness for C7 on the concrete store (both branches). -/
theorem c7_target_file_witness :
    _get_target_file c7Store "build" "linux" "x86_64" "release" "hello"
      = "build/linux/x86_64/release/hello" ∧
    _get_target_file c7Store "build" "linux" "x86_64" "release" "fancy"
      = "build/linux/x86_64/release/libfancy-2.so" := by
  have h1 := (c7_target_file c7Store "build" "linux" "x86_64" "release" "hello").2.1 (by decide)
  have h2 := (c7_target_file c7Store "build" "linux" "x86_64" "release" "fancy").2.2
    "libfancy-2.so" (by decide) (by decide)
  refine ⟨?_, ?_⟩
  · rw [h1]; decide
  · rw [h2]; decide

/-- Replace every (leftmost, non-overlapping) occurrence of `pat` in the
character list; the fuel is instantiated with the list length (each step
consumes at least one character). -/
def replace_all_fuel (pat rep : List Char) : Nat → List Char → List Char
  | 0, l => l
  | _ + 1, [] => []
  | f + 1, x :: rest =>
    if pat.isPrefixOf (x :: rest) ∧ pat ≠ [] then
      rep ++ replace_all_fuel pat rep f ((x :: rest).drop pat.length)
    else x :: replace_all_fuel pat rep f rest

/-- JS `String.prototype.replaceAll` with a plain string pattern and a
replacement free of `$`-escapes. -/
def js_replace_all (s pat rep : String) : String :=
  ⟨replace_all_fuel pat.data rep.data s.data.length s.data⟩

/-- Replace only the first occurrence of `pat`. -/
def replace_first_fuel (pat rep : List Char) : Nat → List Char → List Char
  | 0, l => l
  | _ + 1, [] => []
  | f + 1, x :: rest =>
    if pat.isPrefixOf (x :: rest) ∧ pat ≠ [] then rep ++ (x :: rest).drop pat.length
    else x :: replace_first_fuel pat rep f rest

/-- JS `String.prototype.replace` with a plain string pattern: first
occurrence only. -/
def js_replace_first (s pat rep : String) : String :=
  ⟨replace_first_fuel pat.data rep.data s.data.length s.data⟩

/-- JS `String.prototype.startsWith`. -/
def js_starts_with (s pre : String) : Bool := pre.data.isPrefixOf s.data

/-- The `languages` switch of `_get_abstract_flag_for_gcc_clang` for the
`cc`/`mm` toolkinds (line 676-705): unknown values fall through to the empty
flag. -/
def languages_flag_cc (value : String) : String :=
  if value = "ansi" then "-ansi"
  else if value = "c89" then "-std=c89"
  else if value = "gnu89" then "-std=gnu89"
  else if value = "c99" then "-std=c99"
  else if value = "gnu99" then "-std=gnu99"
  else if value = "c11" then "-std=c11"
  else if value = "gnu11" then "-std=gnu11"
  else if value = "c17" then "-std=c17"
  else if value = "gnu17" then "-std=gnu17"
  else ""

/-- The `languages` switch of `_get_abstract_flag_for_gcc_clang` for the
`cxx`/`mxx` toolkinds (line 706-806): unknown values starting with `cxx` or
`c++` raise; other unknown values fall through to the empty flag. -/
def languages_flag_cxx (value : String) : Except String String :=
  if value = "cxx98" ∨ value = "c++98" then .ok "-std=c++98"
  else if value = "gnuxx98" ∨ value = "gnu++98" then .ok "-std=gnu++98"
  else if value = "cxx11" ∨ value = "c++11" then .ok "-std=c++11"
  else if value = "gnuxx11" ∨ value = "gnu++11" then .ok "-std=gnu++11"
  else if value = "cxx14" ∨ value = "c++14" then .ok "-std=c++14"
  else if value = "gnuxx14" ∨ value = "gnu++14" then .ok "-std=gnu++14"
  else if value = "cxx17" ∨ value = "c++17" then .ok "-std=c++17"
  else if value = "gnuxx17" ∨ value = "gnu++17" then .ok "-std=gnu++17"
  else if value = "cxx1z" ∨ value = "c++1z" then .ok "-std=c++1z"
  else if value = "gnuxx1z" ∨ value = "gnu++1z" then .ok "-std=gnu++1z"
  else if value = "cxx2a" ∨ value = "c++2a" then .ok "-std=c++2a"
  else if value = "gnuxx2a" ∨ value = "gnu++2a" then .ok "-std=gnu++2a"
  else if value = "cxx20" ∨ value = "c++20" then .ok "-std=c++20"
  else if value = "gnuxx20" ∨ value = "gnu++20" then .ok "-std=gnu++20"
  else if js_starts_with value "cxx" then .error ("unknown language value(" ++ value ++ ")!")
  else if js_starts_with value "c++" then .error ("unknown language value(" ++ value ++ ")!")
  else .ok ""

/-- `_get_abstract_flag_for_gcc_clang` (line 588): the per-value flag
translation for the gcc/clang toolname family.  `raise`/`throw` become
`Except.error`; the platform (for `strip`) is a parameter. -/
def _get_abstract_flag_for_gcc_clang (plat toolkind toolname itemname value : String) :
    Except String String :=
  if itemname = "defines" then .ok ("-D" ++ js_replace_all value "\"" "\\\"")
  else if itemname = "udefines" then .ok ("-U" ++ value)
  else if itemname = "includedirs" then .ok ("-I" ++ value)
  else if itemname = "linkdirs" then .ok ("-L" ++ value)
  else if itemname = "links" then .ok ("-l" ++ value)
  else if itemname = "syslinks" then .ok ("-l" ++ value)
  else if itemname = "frameworks" then .ok ("-framework " ++ value)
  else if itemname = "frameworkdirs" then .ok ("-F" ++ value)
  else if itemname = "rpathdirs" then
    (if toolname = "gcc" ∨ toolname = "gxx" then
      .ok ("-Wl,-rpath=\x27" ++ js_replace_first value "@loader_path" "$$$$ORIGIN" ++ "\x27")
    else if toolname = "clang" ∨ toolname = "clangxx" then
      .ok ("-Xlinker -rpath -Xlinker " ++ js_replace_first value "$ORIGIN" "@loader_path")
    else .ok "")
  else if itemname = "symbols" then
    (if value = "debug" then .ok "-g"
    else if value = "hidden" then .ok "-fvisibility=hidden"
    else .ok "")
  else if itemname = "strip" then
    (if value = "debug" then .ok "-Wl,-S"
    else if value = "all" then .ok (if plat = "macosx" then "-Wl,-x" else "-s")
    else .ok "")
  else if itemname = "warnings" then
    (if value = "all" ∨ value = "more" ∨ value = "less" then .ok "-Wall"
    else if value = "allextra" then .ok "-Wall -Wextra"
    else if value = "error" then .ok "-Werror"
    else if value = "everything" then .ok "-Wall -Wextra"
    else if value = "none" then .ok "-w"
    else .ok "")
  else if itemname = "optimizes" then
    (if value = "fast" then .ok "-O1"
    else if value = "faster" then .ok "-O2"
    else if value = "fastest" then .ok "-O3"
    else if value = "smallest" then
      .ok (if toolname = "clang" ∨ toolname = "clangxx" then "-Oz" else "-Os")
    else if value = "aggressive" then .ok "-Ofast"
    else if value = "none" then .ok "-O0"
    else .ok "")
  else if itemname = "languages" then
    (if toolkind = "cc" ∨ toolkind = "mm" then .ok (languages_flag_cc value)
    else if toolkind = "cxx" ∨ toolkind = "mxx" then languages_flag_cxx value
    else .ok "")
  else .error ("unknown itemname(" ++ itemname ++ ")!")

/-- The toolname dispatch of `_get_abstract_flags` (line 819): only the
gcc/clang family is supported; other toolnames raise. -/
def translate_for_toolname (plat toolkind toolname itemname value : String) :
    Except String String :=
  if toolname = "gcc" ∨ toolname = "gxx" ∨ toolname = "clang" ∨ toolname = "clangxx" then
    _get_abstract_flag_for_gcc_clang plat toolkind toolname itemname value
  else .error ("unknown toolname(" ++ toolname ++ ")!")

/-- The value loop of `_get_abstract_flags` (line 815): translate each token,
appending `" " ++ flag` for each non-empty translation. -/
def _get_abstract_flags_go (plat toolkind toolname itemname : String) :
    List String → String → Except String String
  | [], acc => .ok acc
  | v :: rest, acc =>
    match translate_for_toolname plat toolkind toolname itemname v with
    | .error e => .error e
    | .ok flag => _get_abstract_flags_go plat toolkind toolname itemname rest
        (if flag ≠ "" then acc ++ " " ++ flag else acc)

/-- `_get_abstract_flags` (line 815), at the token level. -/
def _get_abstract_flags (plat toolkind toolname itemname : String) (values : List String) :
    Except String String :=
  _get_abstract_flags_go plat toolkind toolname itemname values ""

/-- The `languages` case of the translator dispatches only on the toolkind. -/
theorem lang_branch (plat tk tn v : String) :
    _get_abstract_flag_for_gcc_clang plat tk tn "languages" v =
      (if tk = "cc" ∨ tk = "mm" then .ok (languages_flag_cc v)
       else if tk = "cxx" ∨ tk = "mxx" then languages_flag_cxx v
       else .ok "") := rfl

/-- Peeling one `ok` alternative off an if-chain that produced an error. -/
theorem ite_ok_error {c : Prop} [Decidable c] {s : String} {x : Except String String}
    {e : String} (h : (if c then Except.ok s else x) = .error e) : x = .error e := by
  by_cases hc : c
  · rw [if_pos hc] at h
    exact Except.noConfusion h
  · rw [if_neg hc] at h
    exact h

/-- The cxx-languages switch errs only on values starting `cxx` or `c++`. -/
theorem languages_flag_cxx_error (v e : String)
    (h : languages_flag_cxx v = .error e) :
    js_starts_with v "cxx" = true ∨ js_starts_with v "c++" = true := by
  unfold languages_flag_cxx at h
  have h14 := ite_ok_error (ite_ok_error (ite_ok_error (ite_ok_error (ite_ok_error
    (ite_ok_error (ite_ok_error (ite_ok_error (ite_ok_error (ite_ok_error (ite_ok_error
    (ite_ok_error (ite_ok_error (ite_ok_error h)))))))))))))
  by_cases hp1 : js_starts_with v "cxx" = true
  · exact Or.inl hp1
  · rw [if_neg hp1] at h14
    by_cases hp2 : js_starts_with v "c++" = true
    · exact Or.inr hp2
    · rw [if_neg hp2] at h14
      exact Except.noConfusion h14

/-- C5 counterexample: translating the unknown languages value `cxx99` with
the `cc` toolkind yields `.ok ""` — no fatal error is raised, contradicting
the claim that a languages value starting with `cxx` always raises. -/
theorem c5_counterexample :
    _get_abstract_flag_for_gcc_clang "linux" "cc" "gcc" "languages" "cxx99" = .ok "" ∧
    _get_abstract_flags "linux" "cc" "gcc" "languages" ["cxx99"] = .ok "" ∧
    js_starts_with "cxx99" "cxx" = true := by
  refine ⟨by decide, by decide, by decide⟩

set_option maxHeartbeats 1000000 in
/-- C5 (amended): for the gcc/clang toolname family, an unknown value for a
known itemname translates to the empty string (silently skipped), except
that, when the toolkind is `cxx` or `mxx`, a languages value starting with
`cxx` or `c++` raises a fatal error (for other toolkinds such values are
silently skipped); an unknown itemname always raises a fatal error; and
translating any value with an unknown toolname raises a fatal error. -/
theorem c5_flag_translation (plat tk tn vlang e : String)
    (item : String)
    (hitem : item ∉ ["defines", "udefines", "includedirs", "linkdirs", "links", "syslinks",
      "frameworks", "frameworkdirs", "rpathdirs", "symbols", "strip", "warnings",
      "optimizes", "languages"])
    (vl : String)
    (hvl : vl ∉ ["ansi", "c89", "gnu89", "c99", "gnu99", "c11", "gnu11", "c17", "gnu17"])
    (vw : String)
    (hvw : vw ∉ ["all", "more", "less", "allextra", "error", "everything", "none"])
    (vo : String)
    (hvo : vo ∉ ["fast", "faster", "fastest", "smallest", "aggressive", "none"])
    (vsym : String) (hvsym : vsym ∉ ["debug", "hidden"])
    (vst : String) (hvst : vst ∉ ["debug", "all"])
    (tn2 : String) (htn2 : tn2 ∉ ["gcc", "gxx", "clang", "clangxx"])
    (v0 : String) (vs : List String) :
    (_get_abstract_flag_for_gcc_clang plat tk tn "languages" vlang = .error e →
      (tk = "cxx" ∨ tk = "mxx") ∧
      (js_starts_with vlang "cxx" = true ∨ js_starts_with vlang "c++" = true)) ∧
    _get_abstract_flag_for_gcc_clang plat "cxx" "gcc" "languages" "cxx99"
      = .error "unknown language value(cxx99)!" ∧
    _get_abstract_flag_for_gcc_clang plat "mxx" "clang" "languages" "c++99"
      = .error "unknown language value(c++99)!" ∧
    _get_abstract_flag_for_gcc_clang plat "cc" tn "languages" vl = .ok "" ∧
    _get_abstract_flag_for_gcc_clang plat tk tn "warnings" vw = .ok "" ∧
    _get_abstract_flag_for_gcc_clang plat tk tn "optimizes" vo = .ok "" ∧
    _get_abstract_flag_for_gcc_clang plat tk tn "symbols" vsym = .ok "" ∧
    _get_abstract_flag_for_gcc_clang plat tk tn "strip" vst = .ok "" ∧
    _get_abstract_flag_for_gcc_clang plat tk tn item v0
      = .error ("unknown itemname(" ++ item ++ ")!") ∧
    _get_abstract_flags plat tk tn2 item (v0 :: vs)
      = .error ("unknown toolname(" ++ tn2 ++ ")!") := by
  simp only [List.mem_cons, List.not_mem_nil, or_false, not_or] at hitem
  simp only [List.mem_cons, List.not_mem_nil, or_false, not_or] at hvl
  simp only [List.mem_cons, List.not_mem_nil, or_false, not_or] at hvw
  simp only [List.mem_cons, List.not_mem_nil, or_false, not_or] at hvo
  simp only [List.mem_cons, List.not_mem_nil, or_false, not_or] at hvsym
  simp only [List.mem_cons, List.not_mem_nil, or_false, not_or] at hvst
  simp only [List.mem_cons, List.not_mem_nil, or_false, not_or] at htn2
  obtain ⟨i1, i2, i3, i4, i5, i6, i7, i8, i9, i10, i11, i12, i13, i14⟩ := hitem
  obtain ⟨l1, l2, l3, l4, l5, l6, l7, l8, l9⟩ := hvl
  obtain ⟨w1, w2, w3, w4, w5, w6, w7⟩ := hvw
  obtain ⟨o1, o2, o3, o4, o5, o6⟩ := hvo
  obtain ⟨s1, s2⟩ := hvsym
  obtain ⟨p1, p2⟩ := hvst
  obtain ⟨t1, t2, t3, t4⟩ := htn2
  refine ⟨?_, by rw [lang_branch]; decide, by rw [lang_branch]; decide, ?_, ?_, ?_, ?_, ?_, ?_, ?_⟩
  · intro h
    rw [lang_branch] at h
    by_cases h1 : tk = "cc" ∨ tk = "mm"
    · rw [if_pos h1] at h
      exact Except.noConfusion h
    · rw [if_neg h1] at h
      by_cases h2 : tk = "cxx" ∨ tk = "mxx"
      · rw [if_pos h2] at h
        exact ⟨h2, languages_flag_cxx_error vlang e h⟩
      · rw [if_neg h2] at h
        exact Except.noConfusion h
  · rw [lang_branch, if_pos (Or.inl rfl)]
    have : languages_flag_cc vl = "" := by
      simp [languages_flag_cc, l1, l2, l3, l4, l5, l6, l7, l8, l9]
    rw [this]
  · simp [_get_abstract_flag_for_gcc_clang, w1, w2, w3, w4, w5, w6, w7]
  · simp [_get_abstract_flag_for_gcc_clang, o1, o2, o3, o4, o5, o6]
  · simp [_get_abstract_flag_for_gcc_clang, s1, s2]
  · simp [_get_abstract_flag_for_gcc_clang, p1, p2]
  · simp [_get_abstract_flag_for_gcc_clang, i1, i2, i3, i4, i5, i6, i7, i8, i9, i10,
      i11, i12, i13, i14]
  · have hcond : ¬(tn2 = "gcc" ∨ tn2 = "gxx" ∨ tn2 = "clang" ∨ tn2 = "clangxx") := by
      tauto
    unfold _get_abstract_flags _get_abstract_flags_go translate_for_toolname
    rw [if_neg hcond]

/-- Witness for the amended C5 at concrete arguments. -/
theorem c5_flag_translation_witness :
    (_get_abstract_flag_for_gcc_clang "linux" "ld" "gcc" "languages" "objc" = .error "x" →
      ("ld" = "cxx" ∨ "ld" = "mxx") ∧
      (js_starts_with "objc" "cxx" = true ∨ js_starts_with "objc" "c++" = true)) ∧
    _get_abstract_flag_for_gcc_clang "linux" "cxx" "gcc" "languages" "cxx99"
      = .error "unknown language value(cxx99)!" ∧
    _get_abstract_flag_for_gcc_clang "linux" "mxx" "clang" "languages" "c++99"
      = .error "unknown language value(c++99)!" ∧
    _get_abstract_flag_for_gcc_clang "linux" "cc" "gcc" "languages" "c++17" = .ok "" ∧
    _get_abstract_flag_for_gcc_clang "linux" "ld" "gcc" "warnings" "pedantic" = .ok "" ∧
    _get_abstract_flag_for_gcc_clang "linux" "ld" "gcc" "optimizes" "turbo" = .ok "" ∧
    _get_abstract_flag_for_gcc_clang "linux" "ld" "gcc" "symbols" "full" = .ok "" ∧
    _get_abstract_flag_for_gcc_clang "linux" "ld" "gcc" "strip" "most" = .ok "" ∧
    _get_abstract_flag_for_gcc_clang "linux" "ld" "gcc" "sanitizers" "address"
      = .error ("unknown itemname(" ++ "sanitizers" ++ ")!") ∧
    _get_abstract_flags "linux" "ld" "msvc" "sanitizers" ("address" :: [])
      = .error ("unknown toolname(" ++ "msvc" ++ ")!") :=
  c5_flag_translation "linux" "ld" "gcc" "objc" "x" "sanitizers" (by decide)
    "c++17" (by decide) "pedantic" (by decide) "turbo" (by decide) "full" (by decide)
    "most" (by decide) "msvc" (by decide) "address" []

/-- `_get_flagname` (line 337): the raw-flag attribute name per toolkind. -/
def _get_flagname (toolkind : String) : Except String String :=
  if toolkind = "cc" then .ok "cflags"
  else if toolkind = "cxx" then .ok "cxxflags"
  else if toolkind = "as" then .ok "asflags"
  else if toolkind = "mm" then .ok "mflags"
  else if toolkind = "mxx" then .ok "mxxflags"
  else if toolkind = "ar" then .ok "arflags"
  else if toolkind = "sh" then .ok "shflags"
  else if toolkind = "ld" then .ok "ldflags"
  else .error ("unknown toolkind(" ++ toolkind ++ ")!")

/-- `_get_target_toolchain_flags_for_gcc` (line 1298): `-m32` on i386, and
`-shared -fPIC` when linking a shared target with the `sh` toolkind. -/
def _get_target_toolchain_flags_for_gcc (st : TStore) (arch name toolkind : String) : String :=
  let flags := ""
  let flags := if arch = "i386" then "-m32" else flags
  if _get_target_item st name "kind" = some "shared" ∧ toolkind = "sh" then "-shared -fPIC"
  else flags

/-- `_get_target_toolchain_flags_for_clang` (line 1311). -/
def _get_target_toolchain_flags_for_clang (st : TStore) (arch name toolkind : String) : String :=
  let flags := "-Qunused-arguments"
  let flags := if arch = "i386" then "-m32" else flags
  if _get_target_item st name "kind" = some "shared" ∧ toolkind = "sh" then "-shared -fPIC"
  else flags

/-- `_get_target_toolchain_flags` (line 1324). -/
def _get_target_toolchain_flags (st : TStore) (arch name toolkind toolname : String) :
    Except String String :=
  if toolname = "gcc" then .ok (_get_target_toolchain_flags_for_gcc st arch name toolkind)
  else if toolname = "gxx" then .ok (_get_target_toolchain_flags_for_gcc st arch name toolkind)
  else if toolname = "clang" then .ok (_get_target_toolchain_flags_for_clang st arch name toolkind)
  else if toolname = "clangxx" then .ok (_get_target_toolchain_flags_for_clang st arch name toolkind)
  else if toolname = "ar" then .ok "-cr"
  else .error ("unknown toolname(" ++ toolname ++ ")!")

/-- `_get_target_abstract_flags` (line 1270) in its values-omitted form (the
one the compiler-flag assembly uses): the effective values are the target's
own attribute list followed by, for each static/shared library dependency,
that dependency's non-empty `<itemname>_public` list. -/
def _get_target_abstract_flags (st : TStore) (plat : String) (fuel : Nat)
    (name toolkind toolname itemname : String) : Except String String :=
  let base := opt_to_array (_get_target_item st name itemname)
  let deps := _get_target_librarydeps st fuel name
  let values := base ++ deps.flatMap (fun dep =>
    if _is_library_kind st dep then
      (let depvalues := _get_target_item st dep (itemname ++ "_public")
       if test_nzo depvalues then opt_to_array depvalues else [])
    else [])
  _get_abstract_flags plat toolkind toolname itemname values

/-- The abstract-itemname loop of `_get_target_compiler_flags`
(lines 1360-1366). -/
def _compiler_abstract_items (st : TStore) (plat : String) (fuel : Nat)
    (name toolkind toolname : String) : List String → String → Except String String
  | [], acc => .ok acc
  | it :: rest, acc =>
    match _get_target_abstract_flags st plat fuel name toolkind toolname it with
    | .error e => .error e
    | .ok f => _compiler_abstract_items st plat fuel name toolkind toolname rest
        (if f ≠ "" then acc ++ " " ++ f else acc)

/-- `_get_target_compiler_flags` (line 1349): toolchain flags, then the
abstract flags for the itemnames `symbols optimizes warnings languages
defines undefines includedirs frameworkdirs frameworks` (note `undefines`,
not `udefines`), then the raw per-toolkind flags plus `cxflags`/`mxflags`.
The program/toolname resolution from the detected toolchain is
parameterized. -/
def _get_target_compiler_flags (st : TStore) (plat arch : String) (fuel : Nat)
    (name toolkind toolname : String) : Except String String :=
  match _get_target_toolchain_flags st arch name toolkind toolname with
  | .error e => .error e
  | .ok tcf =>
    let acc0 := if tcf ≠ "" then "" ++ " " ++ tcf else ""
    match _compiler_abstract_items st plat fuel name toolkind toolname
        ["symbols", "optimizes", "warnings", "languages", "defines", "undefines",
         "includedirs", "frameworkdirs", "frameworks"] acc0 with
    | .error e => .error e
    | .ok acc1 =>
      match _get_flagname toolkind with
      | .error e => .error e
      | .ok flagname =>
        let raw := _get_target_item st name flagname
        let acc2 := if test_nzo raw then acc1 ++ " " ++ raw.getD "" else acc1
        let acc3 :=
          if flagname = "cflags" ∨ flagname = "cxxflags" then
            (let cx := _get_target_item st name "cxflags"
             if test_nzo cx then acc2 ++ " " ++ cx.getD "" else acc2)
          else if flagname = "mflags" ∨ flagname = "mxxflags" then
            (let mx := _get_target_item st name "mxflags"
             if test_nzo mx then acc2 ++ " " ++ mx.getD "" else acc2)
          else acc2
        .ok acc3

/-- The `{public}` marker literal. -/
def public_marker : String := "\x7bpublic\x7d"

/-- `add_udefines` (line 1708) in the targets-loading phase with no option
scope open: arguments other than the `{public}` marker are appended to the
target's `udefines` attribute, and additionally to `undefines_public` when a
marker is present (the root scope is the entity `"__root"`). -/
def add_udefines (st : TStore) (tgt : String) (args : List String) : TStore :=
  let stPriv := args.foldl
    (fun s a => if a ≠ public_marker then _add_target_item s tgt "udefines" a else s) st
  if args.any (fun a => a = public_marker) then
    args.foldl
      (fun s a => if a ≠ public_marker then _add_target_item s tgt "undefines_public" a else s)
      stPriv
  else stPriv

/-- Two targets stores that agree everywhere except possibly at the
`udefines` key. -/
def agree_except_udefines (st st2 : TStore) : Prop :=
  ∀ m k, k ≠ "udefines" → st2 m k = st m k

theorem get_item_agree {st st2 : TStore} (hag : agree_except_udefines st st2)
    {k : String} (hk : k ≠ "udefines") (m : String) :
    _get_target_item st2 m k = _get_target_item st m k := by
  unfold _get_target_item
  rw [hag m k hk, hag "__root" k hk]

theorem lib_kind_agree {st st2 : TStore} (hag : agree_except_udefines st st2) (d : String) :
    _is_library_kind st2 d = _is_library_kind st d := by
  unfold _is_library_kind
  rw [get_item_agree hag (by decide) d]

theorem impl_agree {st st2 : TStore} (hag : agree_except_udefines st st2) :
    ∀ (fuel : Nat) (name : String),
      _get_target_librarydeps_impl st2 fuel name = _get_target_librarydeps_impl st fuel name := by
  intro fuel
  induction fuel with
  | zero => intro name; rfl
  | succ f ih =>
    intro name
    unfold _get_target_librarydeps_impl
    rw [get_item_agree hag (by decide) name]
    have hf : (fun dep => if _is_library_kind st2 dep then
          dep :: _get_target_librarydeps_impl st2 f dep else [])
        = (fun dep => if _is_library_kind st dep then
          dep :: _get_target_librarydeps_impl st f dep else []) := by
      funext dep
      rw [lib_kind_agree hag dep, ih dep]
    rw [hf]

theorem librarydeps_agree {st st2 : TStore} (hag : agree_except_udefines st st2)
    (fuel : Nat) (name : String) :
    _get_target_librarydeps st2 fuel name = _get_target_librarydeps st fuel name := by
  unfold _get_target_librarydeps
  rw [get_item_agree hag (by decide) name, impl_agree hag fuel name]

theorem target_abstract_flags_agree {st st2 : TStore} (hag : agree_except_udefines st st2)
    (plat : String) (fuel : Nat) (name toolkind toolname : String) {itemname : String}
    (hk1 : itemname ≠ "udefines") (hk2 : itemname ++ "_public" ≠ "udefines") :
    _get_target_abstract_flags st2 plat fuel name toolkind toolname itemname
      = _get_target_abstract_flags st plat fuel name toolkind toolname itemname := by
  unfold _get_target_abstract_flags
  rw [get_item_agree hag hk1 name, librarydeps_agree hag fuel name]
  have hf : (fun dep => if _is_library_kind st2 dep then
        (let depvalues := _get_target_item st2 dep (itemname ++ "_public")
         if test_nzo depvalues then opt_to_array depvalues else [])
      else [])
      = (fun dep => if _is_library_kind st dep then
        (let depvalues := _get_target_item st dep (itemname ++ "_public")
         if test_nzo depvalues then opt_to_array depvalues else [])
      else []) := by
    funext dep
    rw [lib_kind_agree hag dep, get_item_agree hag hk2 dep]
  rw [hf]

theorem compiler_items_agree {st st2 : TStore} (hag : agree_except_udefines st st2)
    (plat : String) (fuel : Nat) (name toolkind toolname : String) :
    ∀ (items : List String) (acc : String),
      (∀ it ∈ items, it ≠ "udefines" ∧ it ++ "_public" ≠ "udefines") →
      _compiler_abstract_items st2 plat fuel name toolkind toolname items acc
        = _compiler_abstract_items st plat fuel name toolkind toolname items acc := by
  intro items
  induction items with
  | nil => intro acc _; rfl
  | cons it rest ih =>
    intro acc hits
    have hit := hits it (List.mem_cons_self _ _)
    unfold _compiler_abstract_items
    rw [target_abstract_flags_agree hag plat fuel name toolkind toolname hit.1 hit.2]
    cases _get_target_abstract_flags st plat fuel name toolkind toolname it with
    | error e => rfl
    | ok f => exact ih _ (fun x hx => hits x (List.mem_cons_of_mem _ hx))

theorem toolchain_flags_agree {st st2 : TStore} (hag : agree_except_udefines st st2)
    (arch name toolkind toolname : String) :
    _get_target_toolchain_flags st2 arch name toolkind toolname
      = _get_target_toolchain_flags st arch name toolkind toolname := by
  unfold _get_target_toolchain_flags _get_target_toolchain_flags_for_gcc
    _get_target_toolchain_flags_for_clang
  simp only [get_item_agree hag (show "kind" ≠ "udefines" by decide)]

theorem flagname_ne_udefines (toolkind f : String) (h : _get_flagname toolkind = .ok f) :
    f ≠ "udefines" := by
  unfold _get_flagname at h
  split_ifs at h <;> (injection h with h; subst h; decide)

theorem compiler_flags_agree {st st2 : TStore} (hag : agree_except_udefines st st2)
    (plat arch : String) (fuel : Nat) (name toolkind toolname : String) :
    _get_target_compiler_flags st2 plat arch fuel name toolkind toolname
      = _get_target_compiler_flags st plat arch fuel name toolkind toolname := by
  unfold _get_target_compiler_flags
  rw [toolchain_flags_agree hag arch name toolkind toolname]
  cases _get_target_toolchain_flags st arch name toolkind toolname with
  | error e => rfl
  | ok tcf =>
    dsimp only
    rw [compiler_items_agree hag plat fuel name toolkind toolname _ _ (by decide)]
    cases _compiler_abstract_items st plat fuel name toolkind toolname
        ["symbols", "optimizes", "warnings", "languages", "defines", "undefines",
         "includedirs", "frameworkdirs", "frameworks"]
        (if tcf ≠ "" then "" ++ " " ++ tcf else "") with
    | error e => rfl
    | ok acc1 =>
      cases hfn : _get_flagname toolkind with
      | error e => rfl
      | ok flagname =>
        have hfu := flagname_ne_udefines toolkind flagname hfn
        simp only [get_item_agree hag hfu,
          get_item_agree hag (show "cxflags" ≠ "udefines" by decide),
          get_item_agree hag (show "mxflags" ≠ "udefines" by decide)]

/-- A fold of `{public}`-filtered appends at a fixed key leaves all other
keys unchanged. -/
theorem fold_add_get (tgt key : String) :
    ∀ (args : List String) (st : TStore) (m k : String), k ≠ key →
      (args.foldl (fun s a => if a ≠ public_marker then _add_target_item s tgt key a else s) st) m k
        = st m k := by
  intro args
  induction args with
  | nil => intro st m k _; rfl
  | cons a rest ih =>
    intro st m k hk
    have step : (a :: rest).foldl
        (fun s b => if b ≠ public_marker then _add_target_item s tgt key b else s) st
        = rest.foldl (fun s b => if b ≠ public_marker then _add_target_item s tgt key b else s)
          (if a ≠ public_marker then _add_target_item st tgt key a else st) := rfl
    rw [step, ih _ m k hk]
    by_cases ha : a ≠ public_marker
    · rw [if_pos ha]
      unfold _add_target_item tset
      rw [if_neg (fun hc => hk hc.2)]
    · rw [if_neg ha]

/-- `add_udefines` writes only the `udefines` and `undefines_public` keys. -/
theorem add_udefines_only_keys (st : TStore) (tgt : String) (args : List String)
    (m k : String) (hk1 : k ≠ "udefines") (hk2 : k ≠ "undefines_public") :
    add_udefines st tgt args m k = st m k := by
  unfold add_udefines
  by_cases hp : args.any (fun a => a = public_marker) = true
  · rw [if_pos hp, fold_add_get tgt "undefines_public" args _ m k hk2,
      fold_add_get tgt "udefines" args st m k hk1]
  · rw [if_neg hp, fold_add_get tgt "udefines" args st m k hk1]

/-- Without a `{public}` marker, `add_udefines` only touches the `udefines`
key. -/
theorem add_udefines_agree (st : TStore) (tgt : String) (args : List String)
    (hnp : public_marker ∉ args) :
    agree_except_udefines st (add_udefines st tgt args) := by
  intro m k hk
  unfold add_udefines
  have hp : args.any (fun a => a = public_marker) = false := by
    rw [List.any_eq_false]
    intro a ha
    simp only [decide_eq_true_eq]
    intro hc
    exact hnp (hc ▸ ha)
  rw [hp]
  exact fold_add_get tgt "udefines" args st m k hk

/-- C10: values registered on a target via `add_udefines` (without a
`{public}` marker) never influence the target's own compiler flags: the
flag assembly queries the attribute key `undefines` while `add_udefines`
stores private values under `udefines` (and public copies under
`undefines_public`), so registering private udefines changes neither the
`undefines` attribute nor the assembled compiler flags of any target. -/
theorem c10_udefines_never_in_own_flags (st : TStore) (tgt : String) (args : List String)
    (m k plat arch : String) (fuel : Nat) (name toolkind toolname : String)
    (hk1 : k ≠ "udefines") (hk2 : k ≠ "undefines_public")
    (hnp : public_marker ∉ args) :
    add_udefines st tgt args m k = st m k ∧
    _get_target_item (add_udefines st tgt args) name "undefines"
      = _get_target_item st name "undefines" ∧
    _get_target_compiler_flags (add_udefines st tgt args) plat arch fuel name toolkind toolname
      = _get_target_compiler_flags st plat arch fuel name toolkind toolname := by
  refine ⟨add_udefines_only_keys st tgt args m k hk1 hk2, ?_, ?_⟩
  · unfold _get_target_item
    rw [add_udefines_only_keys st tgt args name "undefines" (by decide) (by decide),
      add_udefines_only_keys st tgt args "__root" "undefines" (by decide) (by decide)]
  · exact compiler_flags_agree (add_udefines_agree st tgt args hnp) plat arch fuel
      name toolkind toolname

/-- Witness for C10 at a concrete store and arguments. -/
theorem c10_udefines_never_in_own_flags_witness :
    add_udefines c7Store "hello" ["FOO"] "hello" "defines" = c7Store "hello" "defines" ∧
    _get_target_item (add_udefines c7Store "hello" ["FOO"]) "hello" "undefines"
      = _get_target_item c7Store "hello" "undefines" ∧
    _get_target_compiler_flags (add_udefines c7Store "hello" ["FOO"]) "linux" "x86_64" 3
        "hello" "cc" "gcc"
      = _get_target_compiler_flags c7Store "linux" "x86_64" 3 "hello" "cc" "gcc" :=
  c10_udefines_never_in_own_flags c7Store "hello" ["FOO"] "hello" "defines" "linux" "x86_64"
    3 "hello" "cc" "gcc" (by decide) (by decide) (by decide)

/-- JS `String.prototype.split` with a single-character separator (keeps
empty fields). -/
def split_char_aux (c : Char) : List Char → List Char → List String
  | [], cur => [⟨cur.reverse⟩]
  | x :: rest, cur =>
    if x = c then ⟨cur.reverse⟩ :: split_char_aux c rest []
    else split_char_aux c rest (x :: cur)

/-- `s.split(c)` at the character level. -/
def js_split (s : String) (c : Char) : List String := split_char_aux c s.data []

/-- `_parse_argument_name` (line 2196): strip a leading `--`, then remove a
trailing `=[^=]*` (everything from the last `=` on). -/
def _parse_argument_name (arg : String) : String :=
  let t := if ("--".data).isPrefixOf arg.data then (⟨arg.data.drop 2⟩ : String) else arg
  let parts := js_split t '='
  if parts.length ≤ 1 then t else join_with "=" parts.dropLast

/-- `_parse_argument_value` (line 2201): remove a leading `[^=]*=`
(everything up to the first `=`). -/
def _parse_argument_value (arg : String) : String :=
  let parts := js_split arg '='
  if parts.length ≤ 1 then arg else join_with "=" (parts.drop 1)

/-- Result of `_handle_option` (line 2205) for one argument: terminate the
process with an exit code, accept the argument, or reject it. -/
inductive HandleResult where
  | exitWith : Nat → HandleResult
  | handled : HandleResult
  | unknown : HandleResult
deriving DecidableEq, Repr

/-- `_handle_option` (line 2205).  `--help` calls `_show_usage`, which ends
with `process.exit(1)` (line 2174); `--version` calls `_show_version`, which
ends with `process.exit(2)` (line 2192).  The recognized settings assign
globals and return true; `--<option>=<value>` for a registered option records
the value; anything else is rejected. -/
def _handle_option (registered : List String) (arg : String) : HandleResult :=
  let name := _parse_argument_name arg
  if name = "help" then .exitWith 1
  else if name = "version" then .exitWith 2
  else if name = "verbose" then .handled
  else if name = "diagnosis" then .handled
  else if name = "plat" then .handled
  else if name = "arch" then .handled
  else if name = "mode" then .handled
  else if name = "toolchain" then .handled
  else if name = "generator" then .handled
  else if name = "make" then .handled
  else if name = "ninja" then .handled
  else if name = "prefix" then .handled
  else if name = "bindir" then .handled
  else if name = "libdir" then .handled
  else if name = "includedir" then .handled
  else if name = "buildir" then .handled
  else if name ∈ registered then .handled
  else .unknown

/-- The argument loop (line 2264): the first exit code produced, or `some 1`
for an unknown option (the loop executes `throw new Error(...)`, and an
uncaught exception terminates node with exit code 1), or `none` when all
arguments are consumed. -/
def _process_args (registered : List String) : List String → Option Nat
  | [] => none
  | a :: rest =>
    match _handle_option registered a with
    | .exitWith c => some c
    | .handled => _process_args registered rest
    | .unknown => some 1

/-- The configurator's process exit code: the exit code pending from argument
handling, else 0 when the script runs to completion (generation succeeded),
else 1 (`raise` is `process.exit(1)`, line 74, and an uncaught `throw`
terminates node with exit code 1). -/
def xmakejs_exitcode (registered : List String) (args : List String)
    (generationOk : Bool) : Nat :=
  match _process_args registered args with
  | some c => c
  | none => if generationOk then 0 else 1

/-- C4 counterexample: `--help` terminates the process with exit code 1
(`_show_usage` ends with `process.exit(1)`, line 2174), not 2 as claimed. -/
theorem c4_counterexample :
    xmakejs_exitcode [] ["--help"] true = 1 ∧
    xmakejs_exitcode [] ["--help"] true ≠ 2 := by
  refine ⟨by decide, by decide⟩

/-- C4 (amended): the configurator exits with code 0 on successful
generation, with code 1 on any fatal error, on an unknown command-line
option, and after `--help`, and with code 2 after `--version`. -/
theorem c4_exit_codes (registered : List String) (rest : List String) (gen : Bool)
    (arg : String) (hunk : _handle_option registered arg = .unknown) :
    xmakejs_exitcode registered ("--help" :: rest) gen = 1 ∧
    xmakejs_exitcode registered ("--version" :: rest) gen = 2 ∧
    xmakejs_exitcode registered [] gen = (if gen then 0 else 1) ∧
    xmakejs_exitcode registered (arg :: rest) gen = 1 := by
  refine ⟨rfl, rfl, rfl, ?_⟩
  unfold xmakejs_exitcode _process_args
  rw [hunk]

/-- Witness for the amended C4 at concrete arguments. -/
theorem c4_exit_codes_witness :
    xmakejs_exitcode [] ("--help" :: []) true = 1 ∧
    xmakejs_exitcode [] ("--version" :: []) true = 2 ∧
    xmakejs_exitcode [] [] true = (if true then 0 else 1) ∧
    xmakejs_exitcode [] ("--bogus" :: []) true = 1 :=
  c4_exit_codes [] [] true "--bogus" (by decide)

/-- Left curly brace (written via its code point). -/
def lcub : String := "\x7b"

/-- Right curly brace (written via its code point). -/
def rcub : String := "\x7d"

/-- `_replace_configvar_define` (line 2920): the `(pattern, replacement)`
pair for a `$\x7bdefine VAR\x7d` placeholder.  The replacement comments carry
no spaces around their contents (`/*#undef VAR*/`, `/*#define VAR 0*/`),
although the `vprint` trace of the same function (lines 2908-2918) displays
them with spaces. -/
def _replace_configvar_define (name : String) (value : Option String) : String × String :=
  let pat := "$" ++ lcub ++ "define " ++ name ++ rcub
  if test_zo value then (pat, "/*#undef " ++ name ++ "*/")
  else if value = some "1" ∨ value = some "true" then (pat, "#define " ++ name ++ " 1")
  else if value = some "0" ∨ value = some "false" then (pat, "/*#define " ++ name ++ " 0*/")
  else (pat, "#define " ++ name ++ " " ++ value.getD "")

/-- `_replace_configvar_value` (line 2934): the pair for a plain
`$\x7bVAR\x7d` placeholder; an `undefined` value is coerced to the text
`undefined` by `replaceAll`. -/
def _replace_configvar_value (name : String) (value : Option String) : String × String :=
  ("$" ++ lcub ++ name ++ rcub,
   match value with
   | none => "undefined"
   | some s => s)

/-- `_io_replace_file` (line 178): apply each `(pattern, replacement)` pair
with `replaceAll` in order. -/
def _io_replace_file (content : String) (patterns : List (String × String)) : String :=
  patterns.foldl (fun c p => js_replace_all c p.1 p.2) content

/-- The final sweep of `_generate_configfile` (line 3037):
`content.replaceAll(new RegExp("$\x7bdefine (.*)\x7d", "g"), "/*#undef $1*/")`.
In a JavaScript regular expression the unescaped `$` is the end-of-input
anchor (the pattern is built from a plain string, not a template literal, so
nothing is interpolated); a match would need the characters
`\x7bdefine (.*)\x7d` to appear after the end of the input, which is
impossible, so the pattern matches no substring and the `replaceAll` is the
identity. -/
def _final_define_sweep (content : String) : String := content

/-- The pure substitution pipeline of `_generate_configfile`
(lines 2951-3037), with the predefined variables (`OS`, version fields, git
fields) and the target's configvars supplied as association lists: build the
pattern list (for each configvar both the `define` pair and the plain value
pair, lines 3023-3031), apply it when non-empty, then run the final sweep. -/
def _generate_configfile_content (predef : List (String × String))
    (configvars : List (String × Option String)) (content : String) : String :=
  let patterns := predef.map (fun p => _replace_configvar_value p.1 (some p.2))
    ++ configvars.flatMap (fun cv =>
        [_replace_configvar_define cv.1 cv.2, _replace_configvar_value cv.1 cv.2])
  let content := if patterns.length > 0 then _io_replace_file content patterns else content
  _final_define_sweep content

/-- C2: evaluation of the configfile templater at the failing inputs.  A
`$\x7bdefine FOO\x7d` placeholder with no matching configvar survives to the
output unchanged (the final sweep never matches, so it is not rewritten to
`/* #undef FOO */` as claimed); and the substituted comment forms carry no
spaces: `/*#undef BAR*/` and `/*#define BAZ 0*/` instead of the claimed
`/* #undef BAR */` and `/* #define BAZ 0 */`.  The `#define VAR 1` and
`#define VAR <value>` cases match the claim. -/
theorem c2_define_substitution :
    _generate_configfile_content [] [] ("$" ++ lcub ++ "define FOO" ++ rcub ++ "\n")
      = "$" ++ lcub ++ "define FOO" ++ rcub ++ "\n" ∧
    _generate_configfile_content [("OS", "LINUX")] [("HAS", some "1")]
        ("$" ++ lcub ++ "define FOO" ++ rcub)
      = "$" ++ lcub ++ "define FOO" ++ rcub ∧
    (_replace_configvar_define "BAR" (some "")).2 = "/*#undef BAR*/" ∧
    (_replace_configvar_define "BAR" none).2 = "/*#undef BAR*/" ∧
    (_replace_configvar_define "BAZ" (some "0")).2 = "/*#define BAZ 0*/" ∧
    (_replace_configvar_define "BAZ" (some "false")).2 = "/*#define BAZ 0*/" ∧
    (_replace_configvar_define "QUX" (some "1")).2 = "#define QUX 1" ∧
    (_replace_configvar_define "QUX" (some "true")).2 = "#define QUX 1" ∧
    (_replace_configvar_define "VER" (some "2.5")).2 = "#define VER 2.5" ∧
    _generate_configfile_content [] [("HAS", some "1")]
        ("$" ++ lcub ++ "define HAS" ++ rcub) = "#define HAS 1" ∧
    _generate_configfile_content [] [("HAS", some "")]
        ("$" ++ lcub ++ "define HAS" ++ rcub) = "/*#undef HAS*/" := by
  refine ⟨by decide, by decide, by decide, by decide, by decide, by decide, by decide,
    by decide, by decide, by decide, by decide⟩

end XmakeJS
